import Mathlib

/-!
Shallow embedding of the oktaws credential-federation orchestrator
(Go sources: `internal/authenticator.go`, `internal/callback_server.go`,
`internal/saml_browser.go`, `cmd/root.go`), together with theorems that
settle the specification claims about it.

Conventions used throughout:
* Go strings are Lean `String`s; Go `int` is Lean `Int` (overflow is
  irrelevant at the values the claims touch).
* Calls into external libraries (base64 decoding, XML unmarshalling, the
  HTTP client, the STS SDK, stdin reads) are modelled as explicit
  parameters or explicit event/outcome values, so that the repository's
  own control flow — the subject of every claim — is embedded exactly.
* Fallible Go code returning `(T, error)` becomes `Except` / `Option`.
-/

deriving instance DecidableEq for Except

namespace Oktaws

/-- Whether the character list `pat` occurs at the start of `text`. -/
def charsStartWith : List Char → List Char → Bool
  | [], _ => true
  | _ :: _, [] => false
  | p :: ps, c :: cs => p == c && charsStartWith ps cs

/-- Whether `pat` occurs as a contiguous run somewhere in `text`. -/
def charsContain (text pat : List Char) : Bool :=
  match text with
  | [] => pat.isEmpty
  | _ :: rest => charsStartWith pat text || charsContain rest pat

/-- Go's `strings.Contains(s, sub)`: `true` iff `sub` occurs as a
contiguous substring of `s` (the empty `sub` occurs in every string). -/
def strContains (s sub : String) : Bool :=
  charsContain s.toList sub.toList

/-- Accumulator loop for `splitComma`: `acc` holds the current fragment
reversed. -/
def splitCommaAux : List Char → List Char → List String
  | [], acc => [String.mk acc.reverse]
  | c :: cs, acc =>
    if c = ',' then String.mk acc.reverse :: splitCommaAux cs []
    else splitCommaAux cs (c :: acc)

/-- Go's `strings.Split(s, ",")`: fragments between commas, empty
fragments kept, `""` splitting to `[""]`. -/
def splitComma (s : String) : List String :=
  splitCommaAux s.toList []

/-- `awsRole` from `internal/authenticator.go`: one role/principal pair
extracted from a SAML `Role` attribute value. -/
structure AWSRole where
  roleARN : String
  principalARN : String
deriving Repr, DecidableEq

/-- The well-known SAML Role attribute name matched at
`internal/authenticator.go:448`. -/
def roleAttributeName : String := "https://aws.amazon.com/SAML/Attributes/Role"

/-- One `<Attribute>` element of the parsed SAML response
(`samlResponse` struct in `internal/authenticator.go`): its `Name`
attribute and the character data of its `<AttributeValue>` children. -/
structure SAMLAttribute where
  name : String
  attributeValue : List String
deriving Repr, DecidableEq

/-- The parsed SAML response document: the `<Attribute>` list of the
assertion's `<AttributeStatement>` (the only part the code reads). -/
structure SAMLResponseDoc where
  attributes : List SAMLAttribute
deriving Repr, DecidableEq

/-- Body of the inner loop of `extractRolesFromSAML`
(`internal/authenticator.go:450-461`): split one attribute value on
commas; only a 2-part split yields a role, with the part containing
`":role/"` preferred for the role field (`parts[0]` when it contains the
marker, otherwise `parts[1]`). -/
def roleFromValue (v : String) : Option AWSRole :=
  match splitComma v with
  | [p0, p1] =>
    if strContains p0 ":role/" then some ⟨p0, p1⟩ else some ⟨p1, p0⟩
  | _ => none

/-- The inner loop of `extractRolesFromSAML` over the values of one
matching attribute, in order. -/
def rolesFromValues : List String → List AWSRole
  | [] => []
  | v :: vs =>
    match roleFromValue v with
    | some r => r :: rolesFromValues vs
    | none => rolesFromValues vs

/-- The outer loop of `extractRolesFromSAML`
(`internal/authenticator.go:447-464`): only attributes named
`roleAttributeName` contribute, in document order. -/
def rolesFromAttributes : List SAMLAttribute → List AWSRole
  | [] => []
  | a :: rest =>
    (if a.name == roleAttributeName then rolesFromValues a.attributeValue else [])
      ++ rolesFromAttributes rest

/-- The three fatal failure modes of `extractRolesFromSAML`. -/
inductive ExtractError where
  | decodeFailed
  | parseFailed
  | noRoles
deriving Repr, DecidableEq

/-- `extractRolesFromSAML` (`internal/authenticator.go:435-471`).
`base64Decode` stands for `base64.StdEncoding.DecodeString` and
`xmlUnmarshal` for `xml.Unmarshal` into the `samlResponse` struct; both
are external library calls, passed in as parameters (`none` = the call
returned an error).  The control flow — decode, then parse, then
collect roles, then reject an empty role list — is the code's own. -/
def extractRolesFromSAML (base64Decode : String → Option (List Nat))
    (xmlUnmarshal : List Nat → Option SAMLResponseDoc)
    (samlAssertion : String) : Except ExtractError (List AWSRole) :=
  match base64Decode samlAssertion with
  | none => .error .decodeFailed
  | some decodedSAML =>
    match xmlUnmarshal decodedSAML with
    | none => .error .parseFailed
    | some samlResp =>
      let roles := rolesFromAttributes samlResp.attributes
      if roles.isEmpty then .error .noRoles else .ok roles

/-- The two fatal failure modes of `selectRole`. -/
inductive SelectError where
  | roleNotFound
  | invalidSelection
deriving Repr, DecidableEq

/-- The preference loop of `selectRole`
(`internal/authenticator.go:475-479`): `for _, role := range roles`
returning the first role whose ARN contains the configured substring. -/
def findPreferredRole (awsIAMRole : String) : List AWSRole → Option AWSRole
  | [] => none
  | r :: rest =>
    if strContains r.roleARN awsIAMRole then some r
    else findPreferredRole awsIAMRole rest

/-- `selectRole` (`internal/authenticator.go:473-506`).  `awsIAMRole` is
`a.config.AWSIAMRole` (the configured preference substring).  `input`
models the single `fmt.Scanln(&choice)` read: `some k` when the read
parses an integer `k`, `none` when the line is empty or unparsable — in
Go the variable then keeps its zero value, hence `input.getD 0`.  A zero
choice is replaced by 1, then the 1-indexed bound check is applied. -/
def selectRole (awsIAMRole : String) (input : Option Int) (roles : List AWSRole) :
    Except SelectError (String × String) :=
  if awsIAMRole ≠ "" then
    match findPreferredRole awsIAMRole roles with
    | some r => .ok (r.roleARN, r.principalARN)
    | none => .error .roleNotFound
  else
    match roles with
    | [r] => .ok (r.roleARN, r.principalARN)
    | _ =>
      let choice0 : Int := input.getD 0
      let choice : Int := if choice0 = 0 then 1 else choice0
      if choice < 1 ∨ (roles.length : Int) < choice then .error .invalidSelection
      else
        let sel := roles.getD (choice - 1).toNat ⟨"", ""⟩
        .ok (sel.roleARN, sel.principalARN)

/-! ### Device-flow polling (`pollForAccessToken`, `internal/authenticator.go:234-294`) -/

/-- Two's-complement wrap of an integer into the signed 64-bit range
`[-2^63, 2^63)`, as Go's int64 arithmetic produces. -/
def wrap64 (x : Int) : Int :=
  (x + 2 ^ 63) % 2 ^ 64 - 2 ^ 63

/-- The interval computation at `internal/authenticator.go:237-240`, in
nanoseconds (`time.Duration` units):
`interval := time.Duration(deviceAuth.Interval) * time.Second` is an
int64 multiplication and therefore wraps (`wrap64`); the result is
replaced by `5 * time.Second` exactly when it equals zero.  `Interval`
itself always fits in int64: a JSON number overflowing Go's `int` makes
`json.Unmarshal` fail, so `startDeviceAuthorization` errors out before
any polling. -/
def pollIntervalNs (interval : Int) : Int :=
  if wrap64 (interval * 1000000000) = 0 then 5 * 1000000000
  else wrap64 (interval * 1000000000)

/-- What one tick of the poll loop observes.  `requestFailed` covers an
`http.NewRequest` or `httpClient.Do` error, `badBody` a
`json.Unmarshal` error; `response` carries the decoded `tokenResponse`
fields `access_token`, `error` and `error_description` (absent JSON
fields decode to `""`). -/
inductive PollAttempt where
  | requestFailed
  | badBody
  | response (accessToken errorCode errorDesc : String)
deriving Repr, DecidableEq

/-- Terminal outcome of the poll loop. -/
inductive PollOutcome where
  | timedOut
  | success (accessToken : String)
  | denied (errorCode errorDesc : String)
deriving Repr, DecidableEq

/-- One iteration of the `ticker.C` branch of the `select`
(`internal/authenticator.go:254-291`): `none` means the loop falls
through to the next tick (every `continue`, plus a response with no
access token whose error code is empty, `authorization_pending` or
`slow_down`); `some` means the loop returns. -/
def pollStep : PollAttempt → Option PollOutcome
  | .requestFailed => none
  | .badBody => none
  | .response accessToken errorCode errorDesc =>
    if accessToken ≠ "" then some (.success accessToken)
    else if errorCode ≠ "" ∧ errorCode ≠ "authorization_pending" ∧ errorCode ≠ "slow_down" then
      some (.denied errorCode errorDesc)
    else none

/-- The poll loop of `pollForAccessToken`.  `attempts` is the sequence
of per-tick observations made before the deadline timer
(`time.After(ExpiresIn seconds)`) fires; reaching the end of the list is
the `<-timeout` branch of the `select` winning, which returns the
"authentication timed out" error. -/
def pollForAccessToken : List PollAttempt → PollOutcome
  | [] => .timedOut
  | a :: rest =>
    match pollStep a with
    | some outcome => outcome
    | none => pollForAccessToken rest

/-! ### Credential exchange (`assumeRoleWithSAML`, `internal/authenticator.go:508-528`) -/

/-- The request struct handed to the STS SDK. -/
structure AssumeRoleWithSAMLInput where
  roleArn : String
  principalArn : String
  samlAssertion : String
  durationSeconds : Int
deriving Repr, DecidableEq

/-- The `*sts.Credentials` fields the code reads. -/
structure STSCredentials where
  accessKeyId : String
  secretAccessKey : String
  sessionToken : String
deriving Repr, DecidableEq

/-- `assumeRoleWithSAML` (`internal/authenticator.go:508-528`).
`callSTS` stands for the external `stsClient.AssumeRoleWithSAML` call.
Besides the result, the model returns the list of provider calls the
function issues (always exactly the one request it builds — the code
has no validation branch, no clamping and no retry around the call).
`sessionDuration` is `a.config.SessionDuration`. -/
def assumeRoleWithSAML
    (callSTS : AssumeRoleWithSAMLInput → Except String STSCredentials)
    (sessionDuration : Int) (samlAssertion roleARN principalARN : String) :
    Except String STSCredentials × List AssumeRoleWithSAMLInput :=
  let input : AssumeRoleWithSAMLInput :=
    ⟨roleARN, principalARN, samlAssertion, sessionDuration⟩
  (callSTS input, [input])

/-- The session-duration defaulting in `NewConfig`
(`internal/extension.go:618-619`): a zero loaded value becomes 3600;
any other value (negative included) is kept. -/
def newConfigSessionDuration (loaded : Int) : Int :=
  if loaded = 0 then 3600 else loaded

/-! ### Callback server (`internal/callback_server.go`) -/

/-- The mutable state of a `CallbackServer` that the handlers and the
waiter touch: `samlChan` is the buffered string channel of capacity 1
(`some v` = one message buffered, `none` = empty) and `gotSAML` the
delivered flag.  The port, config, `errChan` and the `http.Server`
handle carry no claim-relevant state. -/
structure CallbackServer where
  samlChan : Option String
  gotSAML : Bool
deriving Repr, DecidableEq

/-- `NewCallbackServer`: fresh empty channel, `gotSAML` at its zero
value `false`. -/
def newCallbackServer : CallbackServer := ⟨none, false⟩

/-- The HTTP replies `handleCallback` can write. -/
inductive CallbackResponse where
  | methodNotAllowed
  | badRequest
  | missingSAML
  | success
  | busy
deriving Repr, DecidableEq

/-- `handleCallback` (`internal/callback_server.go:55-77`).  `method` is
`r.Method`, `parseFormOk` whether `r.ParseForm()` succeeded, and
`samlResponse` the form value `SAMLResponse` (`""` when absent).  The
non-blocking `select { case s.samlChan <- v: ... default: busy }`
succeeds exactly when the capacity-1 buffer is empty; only then is
`gotSAML` set. -/
def handleCallback (s : CallbackServer) (method : String) (parseFormOk : Bool)
    (samlResponse : String) : CallbackServer × CallbackResponse :=
  if method ≠ "POST" then (s, .methodNotAllowed)
  else if ¬parseFormOk then (s, .badRequest)
  else if samlResponse = "" then (s, .missingSAML)
  else
    match s.samlChan with
    | none => (⟨some samlResponse, true⟩, .success)
    | some _ => (s, .busy)

/-- The status-probe replies. -/
inductive StatusResponse where
  | ok
  | notFound
deriving Repr, DecidableEq

/-- `handleStatus` (`internal/callback_server.go:78-84`): reads
`gotSAML`, writes nothing back into the server state. -/
def handleStatus (s : CallbackServer) : CallbackServer × StatusResponse :=
  (s, if s.gotSAML then .ok else .notFound)

/-- `WaitForSAML` (`internal/callback_server.go:85-96`): when a message
is buffered, the `<-s.samlChan` branch receives it (emptying the
buffer); otherwise the wait ends by the timeout or `errChan` branch,
modelled as `none`.  `gotSAML` is untouched either way. -/
def waitForSAML (s : CallbackServer) : CallbackServer × Option String :=
  match s.samlChan with
  | some saml => (⟨none, s.gotSAML⟩, some saml)
  | none => (s, none)

/-- One interaction with a `CallbackServer` instance. -/
inductive ServerOp where
  | callback (method : String) (parseFormOk : Bool) (samlResponse : String)
  | status
  | waitSAML
deriving Repr, DecidableEq

/-- State effect of one interaction. -/
def applyOp (s : CallbackServer) : ServerOp → CallbackServer
  | .callback m p v => (handleCallback s m p v).1
  | .status => (handleStatus s).1
  | .waitSAML => (waitForSAML s).1

/-- State after a sequence of interactions. -/
def runOps (s : CallbackServer) (ops : List ServerOp) : CallbackServer :=
  ops.foldl applyOp s

/-! ### Flow orchestration (`cmd/root.go:26-50`, `internal/authenticator.go:39-67`,
`internal/saml_browser.go:9-35`) -/

/-- The configuration fields flow resolution and validation read. -/
structure FlowConfig where
  orgDomain : String
  authFlow : String
  oidcClientID : String
  awsAcctFedAppID : String
deriving Repr, DecidableEq

/-- `detectAuthFlow` (`internal/authenticator.go:59-67`). -/
def detectAuthFlow (cfg : FlowConfig) : String :=
  if cfg.oidcClientID ≠ "" then "oidc"
  else if cfg.awsAcctFedAppID ≠ "" then "saml-browser"
  else "oidc"

/-- How a run ends, up to the point where configuration can still stop
it.  `configError` is a missing-field error raised before the flow does
anything else; `unknownFlow` is `Authenticate`'s default branch;
`proceeds flow` means all configuration validation has passed and the
flow body runs — for `"oidc"` the very next operation is the
`startDeviceAuthorization` network request, for `"saml-browser"` the
remaining failure modes (browser detection, extension install, port
bind) are environmental, not configuration. -/
inductive AuthOutcome where
  | configError (msg : String)
  | unknownFlow (flow : String)
  | proceeds (flow : String)
deriving Repr, DecidableEq

/-- The validation prefix of `AuthenticateWithBrowser`
(`internal/saml_browser.go:10-15`): org domain and federation app id
are re-checked before anything else happens. -/
def authenticateWithBrowser (cfg : FlowConfig) : AuthOutcome :=
  if cfg.orgDomain = "" then
    .configError "org-domain is required for browser authentication"
  else if cfg.awsAcctFedAppID = "" then
    .configError "aws-acct-fed-app-id is required for browser authentication"
  else .proceeds "saml-browser"

/-- `Authenticate` (`internal/authenticator.go:39-57`): resolves
`"auto"` via `detectAuthFlow`, then dispatches.  `AuthenticateWithOIDC`
performs no validation of its own — its first statement is the
`startDeviceAuthorization` network call. -/
def authenticate (cfg : FlowConfig) : AuthOutcome :=
  let authFlow := if cfg.authFlow = "auto" then detectAuthFlow cfg else cfg.authFlow
  if authFlow = "oidc" then .proceeds "oidc"
  else if authFlow = "saml-browser" ∨ authFlow = "saml_browser" then
    authenticateWithBrowser cfg
  else .unknownFlow authFlow

/-- `runWebAuth` (`cmd/root.go:26-50`).  Note the local `auto`
resolution: when neither identifier is configured, **neither** branch of
the `if/else if` fires, so the local `authFlow` variable keeps the value
`"auto"` and both required-field checks below it are skipped; the
resolved flow is not written back into the config, so `Authenticate`
re-resolves it. -/
def runWebAuth (cfg : FlowConfig) : AuthOutcome :=
  if cfg.orgDomain = "" then
    .configError "org-domain is required"
  else
    let authFlow :=
      if cfg.authFlow = "auto" then
        if cfg.oidcClientID ≠ "" then "oidc"
        else if cfg.awsAcctFedAppID ≠ "" then "saml-browser"
        else cfg.authFlow
      else cfg.authFlow
    if authFlow = "oidc" ∧ cfg.oidcClientID = "" then
      .configError "oidc-client-id is required for OIDC flow"
    else if authFlow = "saml-browser" ∧ cfg.awsAcctFedAppID = "" then
      .configError "aws-acct-fed-app-id is required for browser SAML flow"
    else authenticate cfg

/-! ## Helper lemmas -/

/-- A value whose comma-split does not have exactly two parts yields no
role. -/
theorem roleFromValue_skip (v : String) (h : (splitComma v).length ≠ 2) :
    roleFromValue v = none := by
  unfold roleFromValue
  rcases hsp : splitComma v with _ | ⟨a, _ | ⟨b, _ | ⟨c, t⟩⟩⟩ <;>
    simp_all [hsp]

/-- The preference loop returns the first matching role: any decomposition
into a non-matching initial segment followed by a matching role. -/
theorem findPreferredRole_first (pref : String) (prior rest : List AWSRole)
    (r : AWSRole) (hprior : ∀ x ∈ prior, strContains x.roleARN pref = false)
    (hr : strContains r.roleARN pref = true) :
    findPreferredRole pref (prior ++ r :: rest) = some r := by
  induction prior with
  | nil => unfold findPreferredRole; simp [hr]
  | cons b bs ih =>
    have hb : strContains b.roleARN pref = false := hprior b (by simp)
    unfold findPreferredRole
    simp only [List.cons_append, hb]
    simpa using ih (fun x hx => hprior x (by simp [hx]))

/-- The preference loop finds nothing when no role matches. -/
theorem findPreferredRole_none (pref : String) (roles : List AWSRole)
    (h : ∀ x ∈ roles, strContains x.roleARN pref = false) :
    findPreferredRole pref roles = none := by
  induction roles with
  | nil => rfl
  | cons b bs ih =>
    have hb : strContains b.roleARN pref = false := h b (by simp)
    unfold findPreferredRole
    simp only [hb]
    simpa using ih (fun x hx => h x (by simp [hx]))

/-! ## Claims -/

/-- C3: for every SAML Role attribute value that splits on comma into
exactly two parts, the part containing the marker `":role/"` is assigned
to the role field and the other part to the principal field, in either
input order (when both parts contain the marker the code prefers the
first, consistent with "the part containing the marker"). -/
theorem C3_role_marker_assignment (v p0 p1 : String)
    (hsplit : splitComma v = [p0, p1]) :
    (strContains p0 ":role/" = true → roleFromValue v = some ⟨p0, p1⟩) ∧
    (strContains p0 ":role/" = false → strContains p1 ":role/" = true →
      roleFromValue v = some ⟨p1, p0⟩) := by
  constructor
  · intro h
    unfold roleFromValue
    rw [hsplit]
    simp [h]
  · intro h0 _h1
    unfold roleFromValue
    rw [hsplit]
    simp [h0]

/-- Witness for C3 at a concrete reversed-order attribute value. -/
theorem C3_role_marker_assignment_witness :
    roleFromValue "arn:aws:iam::1:saml-provider/Y,arn:aws:iam::1:role/X" =
      some ⟨"arn:aws:iam::1:role/X", "arn:aws:iam::1:saml-provider/Y"⟩ :=
  (C3_role_marker_assignment "arn:aws:iam::1:saml-provider/Y,arn:aws:iam::1:role/X"
      "arn:aws:iam::1:saml-provider/Y" "arn:aws:iam::1:role/X" (by decide)).2
    (by decide) (by decide)

/-- C4: `extractRolesFromSAML` fails exactly when base64 decoding fails
(`decodeFailed`), XML parsing fails (`parseFailed`), or zero role grants
are extracted (`noRoles`); a value that does not split into exactly two
parts is silently skipped and never by itself causes an error. -/
theorem C4_extract_error_conditions
    (dec : String → Option (List Nat)) (parse : List Nat → Option SAMLResponseDoc)
    (s : String) :
    (dec s = none → extractRolesFromSAML dec parse s = .error .decodeFailed) ∧
    (∀ b, dec s = some b → parse b = none →
      extractRolesFromSAML dec parse s = .error .parseFailed) ∧
    (∀ b doc, dec s = some b → parse b = some doc →
      (rolesFromAttributes doc.attributes = [] →
        extractRolesFromSAML dec parse s = .error .noRoles) ∧
      (rolesFromAttributes doc.attributes ≠ [] →
        extractRolesFromSAML dec parse s = .ok (rolesFromAttributes doc.attributes))) ∧
    (∀ v vs, (splitComma v).length ≠ 2 →
      rolesFromValues (v :: vs) = rolesFromValues vs) := by
  refine ⟨?_, ?_, ?_, ?_⟩
  · intro h
    unfold extractRolesFromSAML
    rw [h]
  · intro b hb hp
    unfold extractRolesFromSAML
    rw [hb]
    simp [hp]
  · intro b doc hb hp
    unfold extractRolesFromSAML
    rw [hb]
    constructor
    · intro h
      simp [hp, h]
    · intro h
      simp [hp, List.isEmpty_iff, h]
  · intro v vs hlen
    have hnone : roleFromValue v = none := roleFromValue_skip v hlen
    simp [rolesFromValues, hnone]

/-- Witness for C4: a decode failure, a parse failure, a no-roles
document, a successful extraction, and a skipped three-part value. -/
theorem C4_extract_error_conditions_witness :
    extractRolesFromSAML (fun _ => none) (fun _ => some ⟨[]⟩) "x" =
      .error .decodeFailed ∧
    extractRolesFromSAML (fun _ => some [1]) (fun _ => none) "x" =
      .error .parseFailed ∧
    extractRolesFromSAML (fun _ => some [1]) (fun _ => some ⟨[]⟩) "x" =
      .error .noRoles ∧
    rolesFromValues ["a,b,c", "p:role/q,r"] = [⟨"p:role/q", "r"⟩] := by
  refine ⟨?_, ?_, ?_, ?_⟩
  · exact (C4_extract_error_conditions (fun _ => none) (fun _ => some ⟨[]⟩) "x").1 rfl
  · exact (C4_extract_error_conditions (fun _ => some [1]) (fun _ => none) "x").2.1 [1] rfl rfl
  · exact ((C4_extract_error_conditions (fun _ => some [1]) (fun _ => some ⟨[]⟩) "x").2.2.1
      [1] ⟨[]⟩ rfl rfl).1 (by decide)
  · have h := (C4_extract_error_conditions (fun _ => none) (fun _ => some ⟨[]⟩) "x").2.2.2
      "a,b,c" ["p:role/q,r"] (by decide)
    rw [h]
    decide

/-- C5: with a non-empty configured preference substring, `selectRole`
returns the first grant whose role ARN contains the substring ("first"
expressed as: any non-matching initial segment followed by a match);
when no grant matches it fails with the configured-role-not-found error,
even when exactly one grant exists, with no fallback. -/
theorem C5_preferred_role_selection (pref : String) (input : Option Int)
    (prior rest roles : List AWSRole) (r : AWSRole) (hpref : pref ≠ "") :
    ((∀ x ∈ prior, strContains x.roleARN pref = false) →
      strContains r.roleARN pref = true →
      selectRole pref input (prior ++ r :: rest) = .ok (r.roleARN, r.principalARN)) ∧
    ((∀ x ∈ roles, strContains x.roleARN pref = false) →
      selectRole pref input roles = .error .roleNotFound) := by
  constructor
  · intro hprior hr
    unfold selectRole
    rw [if_pos hpref, findPreferredRole_first pref prior rest r hprior hr]
  · intro hnone
    unfold selectRole
    rw [if_pos hpref, findPreferredRole_none pref roles hnone]

/-- Witness for C5: the preference selects the first matching grant of
three, and a single-grant list with a non-matching preference fails. -/
theorem C5_preferred_role_selection_witness :
    selectRole "admin" none
        [⟨"arn:aws:iam::1:role/dev", "p1"⟩, ⟨"arn:aws:iam::1:role/admin-a", "p2"⟩,
          ⟨"arn:aws:iam::1:role/admin-b", "p3"⟩] =
      .ok ("arn:aws:iam::1:role/admin-a", "p2") ∧
    selectRole "admin" none [⟨"arn:aws:iam::1:role/dev", "p1"⟩] =
      .error .roleNotFound := by
  constructor
  · exact (C5_preferred_role_selection "admin" none
        [⟨"arn:aws:iam::1:role/dev", "p1"⟩] [⟨"arn:aws:iam::1:role/admin-b", "p3"⟩]
        [] ⟨"arn:aws:iam::1:role/admin-a", "p2"⟩ (by decide)).1
      (by decide) (by decide)
  · exact (C5_preferred_role_selection "admin" none [] []
        [⟨"arn:aws:iam::1:role/dev", "p1"⟩] ⟨"", ""⟩ (by decide)).2 (by decide)

/-- C6 counterexample: with two grants, no preference, and a malformed
choice (a line `fmt.Scanln` cannot parse as an integer, so `choice`
keeps its zero value, modelled by `input = none`), `selectRole` returns
the first grant instead of the claimed invalid-selection error. -/
theorem C6_counterexample :
    selectRole "" none
        [⟨"arn:aws:iam::1:role/A", "pA"⟩, ⟨"arn:aws:iam::1:role/B", "pB"⟩] =
      .ok ("arn:aws:iam::1:role/A", "pA") ∧
    selectRole "" none
        [⟨"arn:aws:iam::1:role/A", "pA"⟩, ⟨"arn:aws:iam::1:role/B", "pB"⟩] ≠
      .error .invalidSelection := by
  decide

/-- C6 (amended): with no preference, one grant is returned without
prompting; with two or more grants, an empty, malformed or zero choice
selects index 1, an in-range choice `k` selects the `k`-th grant, and a
nonzero choice outside `1..n` fails with the invalid-selection error
without retry. -/
theorem C6_interactive_selection (roles : List AWSRole) (input : Option Int) :
    (∀ r : AWSRole, selectRole "" input [r] = .ok (r.roleARN, r.principalARN)) ∧
    (∀ a b t, roles = a :: b :: t → input.getD 0 = 0 →
      selectRole "" input roles = .ok (a.roleARN, a.principalARN)) ∧
    (∀ (k : Int) (a b : AWSRole) (t : List AWSRole), roles = a :: b :: t →
      input = some k → 1 ≤ k → k ≤ (roles.length : Int) →
      selectRole "" input roles =
        .ok ((roles.getD (k - 1).toNat ⟨"", ""⟩).roleARN,
          (roles.getD (k - 1).toNat ⟨"", ""⟩).principalARN)) ∧
    (∀ (k : Int) (a b : AWSRole) (t : List AWSRole), roles = a :: b :: t →
      input = some k → k ≠ 0 → (k < 1 ∨ (roles.length : Int) < k) →
      selectRole "" input roles = .error .invalidSelection) := by
  refine ⟨?_, ?_, ?_, ?_⟩
  · intro r
    rfl
  · intro a b t hroles hzero
    subst hroles
    unfold selectRole
    rw [if_neg (by simp)]
    simp only [hzero]
    norm_num
    intro hc
    exact absurd hc (by omega)
  · intro k a b t hroles hinput h1 hn
    subst hroles hinput
    unfold selectRole
    rw [if_neg (by simp)]
    have hk : ¬((Option.some k).getD 0 = 0) := by
      simp only [Option.getD]
      omega
    simp only [Option.getD] at *
    rw [if_neg hk, if_neg (by omega)]
  · intro k a b t hroles hinput hk0 hout
    subst hroles hinput
    unfold selectRole
    rw [if_neg (by simp)]
    have hk : ¬((Option.some k).getD 0 = 0) := by
      simp only [Option.getD]
      omega
    simp only [Option.getD] at *
    rw [if_neg hk, if_pos hout]

/-- Witness for C6 (amended): two grants with input `2` select the
second; a single grant needs no input; out-of-range input `3` fails. -/
theorem C6_interactive_selection_witness :
    selectRole "" (some 2) [⟨"rA", "pA"⟩, ⟨"rB", "pB"⟩] = .ok ("rB", "pB") ∧
    selectRole "" none [⟨"rA", "pA"⟩] = .ok ("rA", "pA") ∧
    selectRole "" (some 3) [⟨"rA", "pA"⟩, ⟨"rB", "pB"⟩] =
      .error .invalidSelection := by
  refine ⟨?_, ?_, ?_⟩
  · have h := (C6_interactive_selection [⟨"rA", "pA"⟩, ⟨"rB", "pB"⟩] (some 2)).2.2.1
      2 ⟨"rA", "pA"⟩ ⟨"rB", "pB"⟩ [] rfl rfl (by decide) (by decide)
    rw [h]
    decide
  · exact (C6_interactive_selection [] none).1 ⟨"rA", "pA"⟩
  · exact (C6_interactive_selection [⟨"rA", "pA"⟩, ⟨"rB", "pB"⟩] (some 3)).2.2.2
      3 ⟨"rA", "pA"⟩ ⟨"rB", "pB"⟩ [] rfl rfl (by decide) (by decide)

/-- An integer already in the signed 64-bit range is unchanged by the
wrap. -/
theorem wrap64_eq_self (x : Int) (h1 : -(2 ^ 63) ≤ x) (h2 : x < 2 ^ 63) :
    wrap64 x = x := by
  unfold wrap64
  have hmod : (x + 2 ^ 63) % 2 ^ 64 = x + 2 ^ 63 :=
    Int.emod_eq_of_lt (by omega) (by omega)
  omega

/-- C7 counterexample: the provider-specified interval `2^55` is
nonzero, yet its int64 product with `time.Second` wraps to exactly zero
(`2^55 * 10^9 = 2^64 * 1953125`), so the poller uses the 5-second
default instead of the provider-specified interval. -/
theorem C7_counterexample :
    (2 ^ 55 : Int) ≠ 0 ∧
    pollIntervalNs (2 ^ 55) = 5 * 1000000000 ∧
    (5 * 1000000000 : Int) ≠ 2 ^ 55 * 1000000000 := by
  refine ⟨by norm_num, ?_, by norm_num⟩
  have hzero : wrap64 (2 ^ 55 * 1000000000) = 0 := by decide
  unfold pollIntervalNs
  rw [if_pos hzero]

/-- C7 (amended): a poll run in which every attempt before the deadline
is swallowed (no token, no terminal provider error — exactly the runs
in which the expiry elapses with no token returned) ends in the timeout
outcome, which is a different constructor from the provider-denied and
success outcomes.  The tick interval is the int64-wrapped product of
the provider-specified interval with `time.Second`, and the 5-second
default is applied exactly when that wrapped product is zero: for any
provider interval in `1..9*10^9` seconds the product does not wrap and
the provider-specified interval is used, but a nonzero interval whose
product wraps to zero (any multiple of `2^55`) silently gets the
default too. -/
theorem C7_timeout_and_interval (attempts : List PollAttempt) (interval : Int)
    (hswallowed : ∀ a ∈ attempts, pollStep a = none) :
    pollForAccessToken attempts = .timedOut ∧
    (∀ e d, PollOutcome.timedOut ≠ PollOutcome.denied e d) ∧
    (∀ t, PollOutcome.timedOut ≠ PollOutcome.success t) ∧
    pollIntervalNs 0 = 5 * 1000000000 ∧
    (1 ≤ interval → interval ≤ 9000000000 →
      pollIntervalNs interval = interval * 1000000000) ∧
    (wrap64 (interval * 1000000000) = 0 →
      pollIntervalNs interval = 5 * 1000000000) ∧
    (wrap64 (interval * 1000000000) ≠ 0 →
      pollIntervalNs interval = wrap64 (interval * 1000000000)) := by
  refine ⟨?_, ?_, ?_, by decide, ?_, ?_, ?_⟩
  · induction attempts with
    | nil => rfl
    | cons a rest ih =>
      have ha : pollStep a = none := hswallowed a (by simp)
      unfold pollForAccessToken
      rw [ha]
      exact ih (fun x hx => hswallowed x (by simp [hx]))
  · intro e d h
    cases h
  · intro t h
    cases h
  · intro ha hb
    have hx1 : (1 : Int) * 1000000000 ≤ interval * 1000000000 :=
      mul_le_mul_of_nonneg_right ha (by norm_num)
    have hx2 : interval * 1000000000 ≤ 9000000000 * 1000000000 :=
      mul_le_mul_of_nonneg_right hb (by norm_num)
    have hw : wrap64 (interval * 1000000000) = interval * 1000000000 :=
      wrap64_eq_self _ (by omega) (by omega)
    unfold pollIntervalNs
    rw [hw, if_neg (by omega)]
  · intro h
    unfold pollIntervalNs
    rw [if_pos h]
  · intro h
    unfold pollIntervalNs
    rw [if_neg h]

/-- Witness for C7 (amended): a run of one connection error, one
malformed body, one pending response, one slow-down response and one
empty response times out; interval 7 does not wrap and is kept. -/
theorem C7_timeout_and_interval_witness :
    pollForAccessToken
        [.requestFailed, .badBody, .response "" "authorization_pending" "d",
          .response "" "slow_down" "", .response "" "" ""] = .timedOut ∧
    pollIntervalNs 0 = 5 * 1000000000 ∧
    pollIntervalNs 7 = 7 * 1000000000 := by
  have h := C7_timeout_and_interval
    [.requestFailed, .badBody, .response "" "authorization_pending" "d",
      .response "" "slow_down" "", .response "" "" ""] 7 (by decide)
  exact ⟨h.1, h.2.2.2.1, h.2.2.2.2.1 (by decide) (by decide)⟩

/-- C8: a token response with a non-empty access token ends the poll
with success; a response carrying an error code other than
`authorization_pending` and `slow_down` ends it with the fatal denied
outcome; a connection error, a malformed body, and the two pending
codes are all swallowed — the loop continues exactly as if the tick had
not happened. -/
theorem C8_poll_step_outcomes (rest : List PollAttempt) (tok e d : String) :
    (tok ≠ "" → pollForAccessToken (.response tok e d :: rest) = .success tok) ∧
    (e ≠ "" → e ≠ "authorization_pending" → e ≠ "slow_down" →
      pollForAccessToken (.response "" e d :: rest) = .denied e d) ∧
    pollForAccessToken (.requestFailed :: rest) = pollForAccessToken rest ∧
    pollForAccessToken (.badBody :: rest) = pollForAccessToken rest ∧
    pollForAccessToken (.response "" "authorization_pending" d :: rest) =
      pollForAccessToken rest ∧
    pollForAccessToken (.response "" "slow_down" d :: rest) =
      pollForAccessToken rest := by
  refine ⟨?_, ?_, rfl, rfl, rfl, rfl⟩
  · intro h
    simp [pollForAccessToken, pollStep, h]
  · intro h1 h2 h3
    simp [pollForAccessToken, pollStep, h1, h2, h3]

/-- Witness for C8: a concrete success after a pending tick and a
concrete terminal denial after a connection error. -/
theorem C8_poll_step_outcomes_witness :
    pollForAccessToken [.response "tok123" "" ""] = .success "tok123" ∧
    pollForAccessToken [.response "" "access_denied" "user denied"] =
      .denied "access_denied" "user denied" := by
  constructor
  · exact (C8_poll_step_outcomes [] "tok123" "" "").1 (by decide)
  · exact (C8_poll_step_outcomes [] "" "access_denied" "user denied").2.1
      (by decide) (by decide) (by decide)

/-- C9 counterexample: with the non-positive session duration `-5`, the
claimed local positive-integer validation does not happen — the provider
call is still issued, carrying duration `-5`, and its result is
returned. -/
theorem C9_counterexample :
    (assumeRoleWithSAML (fun _ => .ok ⟨"AK", "SK", "ST"⟩) (-5) "saml" "role" "principal").2 =
      [⟨"role", "principal", "saml", -5⟩] ∧
    (assumeRoleWithSAML (fun _ => .ok ⟨"AK", "SK", "ST"⟩) (-5) "saml" "role" "principal").1 =
      .ok ⟨"AK", "SK", "ST"⟩ ∧
    ¬(0 < (-5 : Int)) := by
  decide

/-- C9 (amended): `assumeRoleWithSAML` performs no local validation of
caller-supplied input at all — the session duration is passed to the
provider unchanged (even when non-positive), with no upper or lower
bound; the provider is called exactly once, its error is passed through
unchanged, and there is no retry.  The only session-duration massaging
in the repository is `NewConfig` replacing a zero loaded value by the
default 3600. -/
theorem C9_exchange_passthrough
    (callSTS : AssumeRoleWithSAMLInput → Except String STSCredentials)
    (dur : Int) (saml role principal : String) :
    (assumeRoleWithSAML callSTS dur saml role principal).2 =
      [⟨role, principal, saml, dur⟩] ∧
    (assumeRoleWithSAML callSTS dur saml role principal).1 =
      callSTS ⟨role, principal, saml, dur⟩ ∧
    (∀ e, callSTS ⟨role, principal, saml, dur⟩ = .error e →
      (assumeRoleWithSAML callSTS dur saml role principal).1 = .error e) ∧
    newConfigSessionDuration 0 = 3600 ∧
    (dur ≠ 0 → newConfigSessionDuration dur = dur) := by
  refine ⟨rfl, rfl, ?_, by decide, ?_⟩
  · intro e he
    exact he
  · intro h
    unfold newConfigSessionDuration
    rw [if_neg h]

/-- Witness for C9 (amended) at a failing provider and duration 7200. -/
theorem C9_exchange_passthrough_witness :
    (assumeRoleWithSAML (fun _ => .error "AccessDenied") 7200 "s" "r" "p").1 =
      .error "AccessDenied" ∧
    (assumeRoleWithSAML (fun _ => .error "AccessDenied") 7200 "s" "r" "p").2 =
      [⟨"r", "p", "s", 7200⟩] ∧
    newConfigSessionDuration 7200 = 7200 := by
  have h := C9_exchange_passthrough (fun _ => .error "AccessDenied") 7200 "s" "r" "p"
  exact ⟨h.2.2.1 "AccessDenied" rfl, h.1, h.2.2.2.2 (by decide)⟩

/-- C1 counterexample: the first submission is accepted; after the
waiter consumes it, a second submission is accepted again (the channel
send succeeds because the single-slot buffer is empty again), where the
claim demands a busy rejection for every submission after the first
over the instance's whole lifetime. -/
theorem C1_counterexample :
    (handleCallback newCallbackServer "POST" true "assertionA").2 =
      .success ∧
    (waitForSAML (handleCallback newCallbackServer "POST" true "assertionA").1).2 =
      some "assertionA" ∧
    (handleCallback
        (waitForSAML (handleCallback newCallbackServer "POST" true "assertionA").1).1
        "POST" true "assertionB").2 = .success ∧
    (handleCallback
        (waitForSAML (handleCallback newCallbackServer "POST" true "assertionA").1).1
        "POST" true "assertionB").2 ≠ .busy := by
  decide

/-- C1 (amended): the listener has buffered single-slot semantics per
*unconsumed* assertion, not per lifetime: a valid submission is accepted
iff the slot is empty; while an accepted assertion sits unconsumed in
the slot, every further valid submission is rejected busy with the
state (slot and flag) unchanged; consuming the assertion via the waiter
empties the slot, after which a later submission can be accepted
again. -/
theorem C1_single_slot_semantics (s : CallbackServer) (v saml : String) :
    (s.samlChan = some saml → v ≠ "" →
      handleCallback s "POST" true v = (s, .busy)) ∧
    (s.samlChan = none → v ≠ "" →
      handleCallback s "POST" true v = (⟨some v, true⟩, .success)) ∧
    (s.samlChan = some saml →
      waitForSAML s = (⟨none, s.gotSAML⟩, some saml)) := by
  refine ⟨?_, ?_, ?_⟩
  · intro hfull hv
    simp [handleCallback, hv, hfull]
  · intro hempty hv
    simp [handleCallback, hv, hempty]
  · intro hfull
    simp [waitForSAML, hfull]

/-- Witness for C1 (amended): a concrete accept, busy rejection while
full, and consumption. -/
theorem C1_single_slot_semantics_witness :
    handleCallback ⟨some "A", true⟩ "POST" true "B" = (⟨some "A", true⟩, .busy) ∧
    handleCallback ⟨none, false⟩ "POST" true "A" = (⟨some "A", true⟩, .success) ∧
    waitForSAML ⟨some "A", true⟩ = (⟨none, true⟩, some "A") := by
  have h := C1_single_slot_semantics ⟨some "A", true⟩ "B" "A"
  have h2 := C1_single_slot_semantics ⟨none, false⟩ "A" ""
  exact ⟨h.1 rfl (by decide), h2.2.1 rfl (by decide), h.2.2 rfl⟩

/-- State monotonicity of the delivered flag under any single
interaction. -/
theorem applyOp_gotSAML_mono (s : CallbackServer) (op : ServerOp)
    (h : s.gotSAML = true) : (applyOp s op).gotSAML = true := by
  rcases s with ⟨chan, got⟩
  simp only [CallbackServer.gotSAML] at h
  subst h
  cases op with
  | callback m p v =>
    cases chan <;> simp [applyOp, handleCallback] <;> split_ifs <;> simp
  | status => rfl
  | waitSAML => cases chan <;> rfl

/-- C10: the delivered flag starts false, is set only by a successful
submission, is never reset by any sequence of interactions (the waiter
consuming the assertion included), and the status probe reports it
read-only: it never mutates the state and answers OK exactly when the
flag is set — so once delivered, every later probe reports
delivered. -/
theorem C10_gotSAML_monotone :
    newCallbackServer.gotSAML = false ∧
    (∀ s, (handleStatus s).1 = s) ∧
    (∀ s, (handleStatus s).2 = .ok ↔ s.gotSAML = true) ∧
    (∀ s m p v, (handleCallback s m p v).1.gotSAML = true ↔
      (s.gotSAML = true ∨ (handleCallback s m p v).2 = .success)) ∧
    (∀ s ops, s.gotSAML = true →
      (runOps s ops).gotSAML = true ∧ (handleStatus (runOps s ops)).2 = .ok) := by
  refine ⟨rfl, fun s => rfl, ?_, ?_, ?_⟩
  · intro s
    rcases s with ⟨chan, got⟩
    cases got <;> simp [handleStatus]
  · intro s m p v
    rcases s with ⟨chan, got⟩
    cases chan <;> cases got <;>
      simp [handleCallback] <;> split_ifs <;> simp
  · intro s ops h
    have hmono : (runOps s ops).gotSAML = true := by
      induction ops generalizing s with
      | nil => exact h
      | cons op rest ih => exact ih (applyOp s op) (applyOp_gotSAML_mono s op h)
    refine ⟨hmono, ?_⟩
    simp [handleStatus, hmono]

/-- Witness for C10 at a delivered state followed by a consume, a
subsequent submission (accepted again, since the slot was emptied) and
two probes: the flag stays true throughout. -/
theorem C10_gotSAML_monotone_witness :
    (runOps ⟨some "A", true⟩ [.waitSAML, .status, .callback "POST" true "B", .status]).gotSAML =
      true ∧
    (handleStatus
        (runOps ⟨some "A", true⟩ [.waitSAML, .status, .callback "POST" true "B", .status])).2 =
      .ok := by
  exact (C10_gotSAML_monotone).2.2.2.2 ⟨some "A", true⟩
    [.waitSAML, .status, .callback "POST" true "B", .status] rfl

/-- C2 counterexample: with flow `auto`, a non-empty org domain and
*neither* identifier configured, Auto resolves to OIDC (the default
fallback), whose required OIDC client identifier is absent — yet no
configuration error is raised: `runWebAuth`'s local resolution leaves
the variable at `"auto"` so both required-field checks are skipped, and
`Authenticate` proceeds straight into the device-authorization network
request with an empty client identifier. -/
theorem C2_counterexample :
    runWebAuth ⟨"example.okta.com", "auto", "", ""⟩ = .proceeds "oidc" ∧
    (∀ msg, runWebAuth ⟨"example.okta.com", "auto", "", ""⟩ ≠ .configError msg) := by
  constructor
  · decide
  · intro msg h
    rw [show runWebAuth ⟨"example.okta.com", "auto", "", ""⟩ = .proceeds "oidc" from by decide]
      at h
    cases h

/-- C2 (amended): Auto resolves to OIDC if an OIDC client identifier is
configured, else SAMLBrowser if a federation application identifier is
configured, else OIDC; an explicitly selected flow with its required
field absent fails with a configuration error before any network I/O
(for both spellings of the browser flow), and Auto resolving to
SAMLBrowser implies its required field is present — but when Auto falls
back to OIDC with no OIDC client identifier configured, no configuration
error is raised and the flow proceeds to the device-authorization
network request. -/
theorem C2_flow_resolution_fail_fast (cfg : FlowConfig) :
    (cfg.oidcClientID ≠ "" → detectAuthFlow cfg = "oidc") ∧
    (cfg.oidcClientID = "" → cfg.awsAcctFedAppID ≠ "" →
      detectAuthFlow cfg = "saml-browser") ∧
    (cfg.oidcClientID = "" → cfg.awsAcctFedAppID = "" →
      detectAuthFlow cfg = "oidc") ∧
    (cfg.orgDomain ≠ "" → cfg.authFlow = "oidc" → cfg.oidcClientID = "" →
      runWebAuth cfg = .configError "oidc-client-id is required for OIDC flow") ∧
    (cfg.orgDomain ≠ "" → cfg.authFlow = "saml-browser" → cfg.awsAcctFedAppID = "" →
      runWebAuth cfg =
        .configError "aws-acct-fed-app-id is required for browser SAML flow") ∧
    (cfg.orgDomain ≠ "" → cfg.authFlow = "saml_browser" → cfg.awsAcctFedAppID = "" →
      runWebAuth cfg =
        .configError "aws-acct-fed-app-id is required for browser authentication") ∧
    (cfg.orgDomain ≠ "" → cfg.authFlow = "auto" → cfg.oidcClientID ≠ "" →
      runWebAuth cfg = .proceeds "oidc") ∧
    (cfg.orgDomain ≠ "" → cfg.authFlow = "auto" → cfg.oidcClientID = "" →
      cfg.awsAcctFedAppID ≠ "" → runWebAuth cfg = .proceeds "saml-browser") ∧
    (cfg.orgDomain ≠ "" → cfg.authFlow = "auto" → cfg.oidcClientID = "" →
      cfg.awsAcctFedAppID = "" → runWebAuth cfg = .proceeds "oidc") := by
  rcases cfg with ⟨org, flow, client, fedApp⟩
  simp only [FlowConfig.oidcClientID, FlowConfig.awsAcctFedAppID,
    FlowConfig.orgDomain, FlowConfig.authFlow]
  refine ⟨?_, ?_, ?_, ?_, ?_, ?_, ?_, ?_, ?_⟩
  · intro h1
    simp [detectAuthFlow, h1]
  · intro h1 h2
    subst h1
    simp [detectAuthFlow, h2]
  · intro h1 h2
    subst h1 h2
    simp [detectAuthFlow]
  · intro h1 h2 h3
    subst h2 h3
    simp [runWebAuth, h1]
  · intro h1 h2 h3
    subst h2 h3
    simp [runWebAuth, h1]
  · intro h1 h2 h3
    subst h2 h3
    simp [runWebAuth, authenticate, authenticateWithBrowser, detectAuthFlow, h1]
  · intro h1 h2 h3
    subst h2
    simp [runWebAuth, authenticate, detectAuthFlow, h1, h3]
  · intro h1 h2 h3 h4
    subst h2 h3
    simp [runWebAuth, authenticate, authenticateWithBrowser, detectAuthFlow, h1, h4]
  · intro h1 h2 h3 h4
    subst h2 h3 h4
    simp [runWebAuth, authenticate, detectAuthFlow, h1]

/-- Witness for C2 (amended) at concrete configurations: explicit OIDC
without a client identifier fails fast, explicit browser flow without a
federation application identifier fails fast, Auto with only the
federation application identifier resolves and proceeds to the browser
flow, and Auto with a client identifier resolves to OIDC. -/
theorem C2_flow_resolution_fail_fast_witness :
    runWebAuth ⟨"example.okta.com", "oidc", "", "exk1"⟩ =
      .configError "oidc-client-id is required for OIDC flow" ∧
    runWebAuth ⟨"example.okta.com", "saml-browser", "cid", ""⟩ =
      .configError "aws-acct-fed-app-id is required for browser SAML flow" ∧
    runWebAuth ⟨"example.okta.com", "auto", "", "exk1"⟩ = .proceeds "saml-browser" ∧
    detectAuthFlow ⟨"example.okta.com", "auto", "cid", ""⟩ = "oidc" := by
  refine ⟨?_, ?_, ?_, ?_⟩
  · exact (C2_flow_resolution_fail_fast ⟨"example.okta.com", "oidc", "", "exk1"⟩).2.2.2.1
      (by decide) rfl rfl
  · exact (C2_flow_resolution_fail_fast
        ⟨"example.okta.com", "saml-browser", "cid", ""⟩).2.2.2.2.1 (by decide) rfl rfl
  · exact (C2_flow_resolution_fail_fast
        ⟨"example.okta.com", "auto", "", "exk1"⟩).2.2.2.2.2.2.2.1
      (by decide) rfl rfl (by decide)
  · exact (C2_flow_resolution_fail_fast ⟨"example.okta.com", "auto", "cid", ""⟩).1
      (by decide)

end Oktaws
